import Mathlib

/-!
Verification of the QR generation + result cache + dual-backend replication
pipeline of the multi-cloud QR code generator backend.

The embedding follows `src/backend/services/qr_generator.py`,
`src/backend/services/storage_manager.py` and `src/backend/main.py`.
Bytes are modelled as lists of naturals below 256.  The `uuid4` identifiers
are modelled as an opaque fresh supply (a counter): within a process lifetime
they are unique, which is the only property the code relies on.  Rendering
itself is performed by the third-party `qrcode`/PIL libraries, which are not
part of this repository; those leaf byte-producers are modelled from the
spec (see the doc comments on `makeQR` and the three renderers), while all
control flow, caching, dispatch and error handling is translated from the
source.
-/

universe u v

/-- Whether an exception-carrying computation raised. -/
def isErr {ε : Type u} {α : Type v} : Except ε α → Bool
  | Except.error _ => true
  | Except.ok _ => false

deriving instance DecidableEq for Except

namespace QRGen

/-- Raw file bytes: each element is one byte (a natural below 256). -/
abbrev Bytes := List Nat

/-- Python's `str.upper()`, applied character by character (the inputs
here are ASCII format/level names, for which per-character mapping is
exact). -/
def strUpper (s : String) : String :=
  String.mk (s.data.map Char.toUpper)

/-- Python's `str.lower()`, applied character by character. -/
def strLower (s : String) : String :=
  String.mk (s.data.map Char.toLower)

/-- QR error-correction levels, `qrcode.constants.ERROR_CORRECT_{L,M,Q,H}`. -/
inductive ECLevel
  | L
  | M
  | Q
  | H
  deriving DecidableEq, Repr

/-- The `self.error_correction_levels` dict of `QRCodeGenerator.__init__`:
a lookup from the level string to the library constant. -/
def error_correction_levels (s : String) : Option ECLevel :=
  if s = "L" then some ECLevel.L
  else if s = "M" then some ECLevel.M
  else if s = "Q" then some ECLevel.Q
  else if s = "H" then some ECLevel.H
  else none

/-- `self.error_correction_levels.get(error_correction, ERROR_CORRECT_M)`:
dict lookup with default `M`. -/
def ecLevelOf (s : String) : ECLevel :=
  (error_correction_levels s).getD ECLevel.M

/-- Errors raised inside `_generate_qr_sync`: the encoder's data-overflow
error (`EncodingError` in the spec's taxonomy) and a renderer failure
(`RenderError`). -/
inductive GenError
  | encodingError
  | renderError
  deriving DecidableEq, Repr

/-- Byte-mode data capacity (in characters) of the maximum QR symbol
version (40) at each error-correction level, from the QR standard's
capacity table. -/
def maxCapacity40 : ECLevel → Nat
  | ECLevel.L => 2953
  | ECLevel.M => 2331
  | ECLevel.Q => 1663
  | ECLevel.H => 1273

/-- The `qrcode.QRCode` object after `add_data`/`make(fit=True)`:
the payload together with the construction parameters
(`error_correction`, `box_size`, `border`). -/
structure QRCodeObj where
  data : String
  error_correction : ECLevel
  box_size : Nat
  border : Nat
  deriving DecidableEq, Repr

/-- Modelled from the spec: the encoder is the third-party `qrcode`
library (`QRCode(...)`, `add_data`, `make(fit=True)`), not part of this
repository's `src/`.  Per the spec (§4.1) it fails with `EncodingError`
when `data` is empty or exceeds the capacity of the maximum symbol
version (40) at the requested error-correction level, and otherwise
auto-fits; the encoded object retains the full payload (no truncation). -/
def makeQR (data : String) (ec : ECLevel) (box_size border : Nat) :
    Except GenError QRCodeObj :=
  if data = "" then Except.error GenError.encodingError
  else if maxCapacity40 ec < data.length then Except.error GenError.encodingError
  else Except.ok ⟨data, ec, box_size, border⟩

/-- Code points of a string reduced to bytes.  Used by the modelled
renderers as the data-dependent part of their output. -/
def strBytes (s : String) : Bytes :=
  s.data.map (fun c => c.toNat % 256)

/-- Modelled from the spec: `_generate_png` delegates to PIL via
`qr.make_image(...)`/`img.save(format='PNG')` (third-party, not in
`src/`).  The raster bytes are modelled as a PNG-tagged stream that
depends on the style branch taken (`rounded` / `circle` / default),
the module scale, the quiet zone and the colours, exactly the inputs
the source hands to the library. -/
def generatePNG (qr : QRCodeObj) (fill_color back_color : String)
    (style : Option String) : Bytes :=
  let styleTag : Nat :=
    if style = some "rounded" then 1
    else if style = some "circle" then 2
    else 0
  137 :: 80 :: 78 :: 71 :: styleTag :: qr.box_size % 256 :: qr.border % 256 ::
    (strBytes fill_color ++ strBytes back_color ++ strBytes qr.data)

/-- Modelled from the spec: `_generate_svg` uses the library's
`SvgPathImage` factory.  Modelled as an SVG-tagged stream over the same
inputs. -/
def generateSVG (qr : QRCodeObj) (fill_color back_color : String) : Bytes :=
  60 :: 115 :: 118 :: 103 :: qr.box_size % 256 :: qr.border % 256 ::
    (strBytes fill_color ++ strBytes back_color ++ strBytes qr.data)

/-- Modelled from the spec: `_generate_pdf` first renders the default
(unstyled) raster image and saves it as a single-page PDF, so the PDF
bytes wrap the default PNG render. -/
def generatePDF (qr : QRCodeObj) (fill_color back_color : String) : Bytes :=
  37 :: 80 :: 68 :: 70 :: generatePNG qr fill_color back_color none

/-- `QRCodeGenerator._generate_qr_sync`: build the QR object (encoding,
which may overflow), then dispatch on `format.upper()` — `"SVG"`,
`"PDF"`, and otherwise the PNG branch (the source's
`else:  # Default to PNG`). -/
def generate_qr_sync (data format : String) (size border : Nat)
    (error_correction fill_color back_color : String)
    (style : Option String) : Except GenError Bytes :=
  match makeQR data (ecLevelOf error_correction) size border with
  | Except.error e => Except.error e
  | Except.ok qr =>
    if strUpper format = "SVG" then Except.ok (generateSVG qr fill_color back_color)
    else if strUpper format = "PDF" then Except.ok (generatePDF qr fill_color back_color)
    else Except.ok (generatePNG qr fill_color back_color style)

/-- `base64.b64encode` restricted to the sextet-to-character table:
index `n < 64` into the standard alphabet `A-Za-z0-9+/`, returning the
ASCII code of the character. -/
def b64char (n : Nat) : Nat :=
  if n < 26 then 65 + n
  else if n < 52 then 97 + (n - 26)
  else if n < 62 then 48 + (n - 52)
  else if n = 62 then 43
  else 47

/-- Inverse of the base64 alphabet table: ASCII code back to sextet. -/
def b64charDec (c : Nat) : Nat :=
  if 65 ≤ c ∧ c ≤ 90 then c - 65
  else if 97 ≤ c ∧ c ≤ 122 then 26 + (c - 97)
  else if 48 ≤ c ∧ c ≤ 57 then 52 + (c - 48)
  else if c = 43 then 62
  else 63

/-- `base64.b64encode(file_data)`: bytes to the ASCII codes of the
base64 text, three input bytes per four output characters, `'='` (61)
padding on a final partial group. -/
def b64encode : Bytes → Bytes
  | [] => []
  | [b1] => [b64char (b1 / 4), b64char (b1 % 4 * 16), 61, 61]
  | [b1, b2] =>
      [b64char (b1 / 4), b64char (b1 % 4 * 16 + b2 / 16), b64char (b2 % 16 * 4), 61]
  | b1 :: b2 :: b3 :: rest =>
      b64char (b1 / 4) :: b64char (b1 % 4 * 16 + b2 / 16) ::
        b64char (b2 % 16 * 4 + b3 / 64) :: b64char (b3 % 64) :: b64encode rest

/-- `base64.b64decode`: four base64 characters back to the original
byte group, honouring `'='` padding. -/
def b64decode : Bytes → Bytes
  | c1 :: c2 :: c3 :: c4 :: rest =>
      if c3 = 61 then [b64charDec c1 * 4 + b64charDec c2 / 16]
      else if c4 = 61 then
        [b64charDec c1 * 4 + b64charDec c2 / 16,
         b64charDec c2 % 16 * 16 + b64charDec c3 / 4]
      else
        (b64charDec c1 * 4 + b64charDec c2 / 16) ::
          (b64charDec c2 % 16 * 16 + b64charDec c3 / 4) ::
          (b64charDec c3 % 4 * 64 + b64charDec c4) :: b64decode rest
  | _ => []

/-- A generated artifact: the `result` dict built by
`QRCodeGenerator.generate_qr_code` and stored in the cache.
`base64_data` holds the ASCII codes of the base64 preview string;
`created_at` is the timestamp. -/
structure QRResult where
  id : Nat
  data : String
  format : String
  size : Nat
  file_data : Bytes
  base64_data : Bytes
  created_at : Nat
  file_size : Nat
  deriving DecidableEq, Repr

/-- The in-memory cache `self.cache`: a Python dict from the generated
identifier to the result record, modelled as an association list with
at most one binding per key. -/
abbrev Cache := List (Nat × QRResult)

/-- Dict lookup `self.cache[qr_id]` / membership `qr_id in self.cache`. -/
def cacheGet (c : Cache) (k : Nat) : Option QRResult :=
  (c.find? (fun p => p.1 == k)).map (fun p => p.2)

/-- Dict assignment `self.cache[qr_id] = result`: inserts, replacing any
existing binding of the key.  (CPython keeps the overwritten key's
insertion position; no observable property of the core depends on
iteration order, so the replaced binding is re-inserted at the front.) -/
def cachePut (c : Cache) (k : Nat) (v : QRResult) : Cache :=
  (k, v) :: c.filter (fun p => p.1 != k)

/-- `FileNotFoundError` raised by `get_qr_code` on an unknown id. -/
inductive GetError
  | notFound
  deriving DecidableEq, Repr

/-- The `content_types` dict of `get_qr_code`. -/
def content_types (f : String) : Option String :=
  if f = "PNG" then some "image/png"
  else if f = "SVG" then some "image/svg+xml"
  else if f = "PDF" then some "application/pdf"
  else none

/-- `QRCodeGenerator.get_qr_code`: raise `FileNotFoundError` when the id
is not cached, otherwise return the cached bytes with the content type
from `content_types.get(format.upper(), "image/png")`. -/
def get_qr_code (c : Cache) (qr_id : Nat) : Except GetError (Bytes × String) :=
  match cacheGet c qr_id with
  | none => Except.error GetError.notFound
  | some result =>
      Except.ok (result.file_data, (content_types (strUpper result.format)).getD "image/png")

/-- Generator-service state: the cache plus the fresh-identifier supply
(modelling `uuid.uuid4()`: identifiers already handed out are exactly
those below `nextId`) and the current clock reading used for
`datetime.utcnow()`. -/
structure GenState where
  cache : Cache
  nextId : Nat
  now : Nat
  deriving DecidableEq, Repr

/-- `QRCodeGenerator.generate_qr_code`: draw a fresh id, run
`_generate_qr_sync`; on success compute the base64 preview, build the
result record, insert it into the cache and return it; on an encode or
render exception, re-raise — the id is discarded and the cache is not
touched. -/
def generate_qr_code (s : GenState) (data : String) (format : String)
    (size border : Nat) (error_correction fill_color back_color : String)
    (style : Option String) : GenState × Except GenError QRResult :=
  let qr_id := s.nextId
  match generate_qr_sync data format size border error_correction
      fill_color back_color style with
  | Except.error e => ({ s with nextId := s.nextId + 1 }, Except.error e)
  | Except.ok file_data =>
      let base64_data := b64encode file_data
      let result : QRResult :=
        { id := qr_id, data := data, format := format, size := size,
          file_data := file_data, base64_data := base64_data,
          created_at := s.now, file_size := file_data.length }
      ({ cache := cachePut s.cache qr_id result, nextId := s.nextId + 1,
         now := s.now },
       Except.ok result)

/-- The statistics record returned by `get_cache_stats`.  Python's true
division produces a float; it is modelled exactly as a rational. -/
structure CacheStats where
  cached_items : Nat
  total_cache_size : Nat
  average_size : ℚ
  deriving DecidableEq, Repr

/-- `QRCodeGenerator.get_cache_stats`: item count, summed byte sizes,
and their ratio (0 on an empty cache). -/
def get_cache_stats (c : Cache) : CacheStats :=
  let total_size := (c.map (fun p => p.2.file_data.length)).sum
  { cached_items := c.length,
    total_cache_size := total_size,
    average_size :=
      if c.length = 0 then 0 else (total_size : ℚ) / (c.length : ℚ) }

/-- The pydantic response model `QRCodeResponse` of `main.py`:
`qr_code_base64` is declared `str` with no default, so it is a required
field; `aws_url`/`azure_url` default to `None`. -/
structure QRCodeResponse where
  id : Nat
  data : String
  format : String
  size : Nat
  download_url : String
  qr_code_base64 : Bytes
  aws_url : Option String
  azure_url : Option String
  created_at : Nat
  deriving DecidableEq, Repr

/-- Exceptions raised inside the batch loop: a generation exception
propagated from `generate_qr_code`, or pydantic's `ValidationError`
from constructing a `QRCodeResponse`. -/
inductive BatchFailure
  | gen (e : GenError)
  | validation
  deriving DecidableEq, Repr

/-- Pydantic construction of `QRCodeResponse` from keyword arguments:
the optional `aws_url`/`azure_url` default to `None`, while the required
`qr_code_base64` (no default in the model) makes construction raise
`ValidationError` when the keyword is not supplied (`none` here). -/
def mkQRCodeResponse (id : Nat) (data format : String) (size : Nat)
    (download_url : String) (qr_code_base64 : Option Bytes)
    (created_at : Nat) : Except BatchFailure QRCodeResponse :=
  match qr_code_base64 with
  | none => Except.error BatchFailure.validation
  | some b =>
      Except.ok ⟨id, data, format, size, download_url, b, none, none,
        created_at⟩

/-- The batch loop body of `generate_batch_qr_codes` in `main.py`
(lines 203-227): for each item, `generate_qr_code(data=item,
format=request.format, size=request.size)` with the generator's
remaining defaults (`border=4`, `error_correction="M"`,
`fill_color="black"`, `back_color="white"`, `style=None`), then
`results.append(QRCodeResponse(...))` — constructed WITHOUT the
required `qr_code_base64` keyword, so `none` is passed here — and only
after that append would the background upload task be scheduled.  The
first exception aborts the loop and propagates, so no partial result
list is returned and no later item is generated. -/
def batchLoop (s : GenState) (items : List String) (format : String)
    (size : Nat) : GenState × Except BatchFailure (List QRCodeResponse) :=
  match items with
  | [] => (s, Except.ok [])
  | item :: rest =>
      match generate_qr_code s item format size 4 "M" "black" "white" none with
      | (s', Except.error e) => (s', Except.error (BatchFailure.gen e))
      | (s', Except.ok r) =>
          match mkQRCodeResponse r.id item format size
              ("/qr/download/" ++ toString r.id) none r.created_at with
          | Except.error v => (s', Except.error v)
          | Except.ok resp =>
              match batchLoop s' rest format size with
              | (s'', Except.error e) => (s'', Except.error e)
              | (s'', Except.ok rs) => (s'', Except.ok (resp :: rs))

/-- Errors surfaced by the `/qr/batch` endpoint: the 400 on more than
100 items, and the 500 wrapping any exception escaping the loop. -/
inductive ApiError
  | batchTooLarge
  | internal (e : BatchFailure)
  deriving DecidableEq, Repr

/-- `generate_batch_qr_codes` in `main.py`: reject batches above 100
items, otherwise run the loop; any exception in the loop fails the
whole batch as a 500. -/
def generate_batch_qr_codes (s : GenState) (items : List String)
    (format : String) (size : Nat) :
    GenState × Except ApiError (List QRCodeResponse) :=
  if 100 < items.length then (s, Except.error ApiError.batchTooLarge)
  else
    match batchLoop s items format size with
    | (s', Except.error e) => (s', Except.error (ApiError.internal e))
    | (s', Except.ok rs) => (s', Except.ok rs)

end QRGen

namespace Storage

open QRGen (Bytes)

/-- A provider-side failure: `botocore`'s `ClientError` for AWS,
`AzureError` for Azure — exactly the exception classes the two upload
methods catch. -/
inductive CloudError
  | clientError
  | azureError
  deriving DecidableEq, Repr

/-- `MultiCloudStorageManager` configuration after `initialize()`:
bucket/container names and the per-provider `enabled` flags. -/
structure StorageConfig where
  aws_bucket : String
  azure_container : String
  azure_account : String
  aws_enabled : Bool
  azure_enabled : Bool
  deriving DecidableEq, Repr

/-- The `put_object` request `upload_to_aws` sends to S3. -/
structure AwsPutReq where
  bucket : String
  key : String
  body : Bytes
  contentType : String
  deriving DecidableEq, Repr

/-- The `generate_presigned_url` request: operation name, object
coordinates and `ExpiresIn` seconds. -/
structure AwsPresignReq where
  op : String
  bucket : String
  key : String
  expiresIn : Nat
  deriving DecidableEq, Repr

/-- The remote S3 service as seen through `boto3`: uploading may fail
with `ClientError`; presigned-URL generation is a local signing
computation. -/
structure AwsCloud where
  putObject : AwsPutReq → Except CloudError Unit
  presign : AwsPresignReq → String

/-- The `upload_blob` request sent to Azure Blob Storage. -/
structure AzureUploadReq where
  container : String
  blob : String
  body : Bytes
  contentType : String
  deriving DecidableEq, Repr

/-- The `generate_blob_sas` request: blob coordinates, the read
permission flag of `BlobSasPermissions(read=True)` and the expiry
instant (seconds). -/
structure SasReq where
  account : String
  container : String
  blob : String
  permRead : Bool
  expiry : Nat
  deriving DecidableEq, Repr

/-- The remote Azure service: uploading may fail with `AzureError`;
SAS-token generation is a local signing computation. -/
structure AzureCloud where
  uploadBlob : AzureUploadReq → Except CloudError Unit
  generateSas : SasReq → String

/-- The object key both providers use:
`f"qr-codes/{file_id}.{file_format.lower()}"`. -/
def objectKey (file_id file_format : String) : String :=
  "qr-codes/" ++ file_id ++ "." ++ QRGen.strLower file_format

/-- `MultiCloudStorageManager._get_content_type`. -/
def get_content_type (file_format : String) : String :=
  let f := QRGen.strLower file_format
  if f = "png" then "image/png"
  else if f = "svg" then "image/svg+xml"
  else if f = "pdf" then "application/pdf"
  else "application/octet-stream"

/-- `MultiCloudStorageManager.upload_to_aws`: return `None` when the
provider is disabled; otherwise `put_object` under the shared key — a
`ClientError` is caught and yields `None` — and on success return the
presigned `get_object` URL with `ExpiresIn=3600`. -/
def upload_to_aws (m : StorageConfig) (cloud : AwsCloud) (file_id : String)
    (file_data : Bytes) (file_format : String) : Option String :=
  if !m.aws_enabled then none
  else
    let key := objectKey file_id file_format
    let content_type := get_content_type file_format
    match cloud.putObject
        { bucket := m.aws_bucket, key := key, body := file_data,
          contentType := content_type } with
    | Except.error _ => none
    | Except.ok _ =>
        some (cloud.presign
          { op := "get_object", bucket := m.aws_bucket, key := key,
            expiresIn := 3600 })

/-- The blob URL string `upload_to_azure` assembles around the SAS
token. -/
def azureBlobUrl (m : StorageConfig) (blob_name sas_token : String) : String :=
  "https://" ++ m.azure_account ++ ".blob.core.windows.net/" ++
    m.azure_container ++ "/" ++ blob_name ++ "?" ++ sas_token

/-- `MultiCloudStorageManager.upload_to_azure`: return `None` when the
provider is disabled; otherwise `upload_blob` under the shared blob
name — an `AzureError` is caught and yields `None` — and on success
return the SAS URL with read permission expiring at
`utcnow() + timedelta(hours=1)` (`now + 3600` seconds). -/
def upload_to_azure (m : StorageConfig) (cloud : AzureCloud) (now : Nat)
    (file_id : String) (file_data : Bytes) (file_format : String) :
    Option String :=
  if !m.azure_enabled then none
  else
    let blob_name := objectKey file_id file_format
    let content_type := get_content_type file_format
    match cloud.uploadBlob
        { container := m.azure_container, blob := blob_name,
          body := file_data, contentType := content_type } with
    | Except.error _ => none
    | Except.ok _ =>
        let sas_token := cloud.generateSas
          { account := m.azure_account, container := m.azure_container,
            blob := blob_name, permRead := true, expiry := now + 3600 }
        some (azureBlobUrl m blob_name sas_token)

/-- The background task `upload_to_storage` in `main.py`: upload to AWS
S3 then to Azure Blob Storage, sequentially.  Each adapter catches its
own provider errors and returns `None`, so neither attempt prevents the
other and nothing is raised; the source logs the two URLs, modelled
here as returning the pair. -/
def upload_to_storage (m : StorageConfig) (aws : AwsCloud) (azure : AzureCloud)
    (now : Nat) (qr_id : String) (file_data : Bytes) (file_format : String) :
    Option String × Option String :=
  let aws_url := upload_to_aws m aws qr_id file_data file_format
  let azure_url := upload_to_azure m azure now qr_id file_data file_format
  (aws_url, azure_url)

end Storage

namespace QRGen

/-- Folding a sequence of artifacts into the cache by repeated dict
assignment, in order. -/
def insertAll (c : Cache) (rs : List QRResult) : Cache :=
  rs.foldl (fun acc r => cachePut acc r.id r) c

/-- Preview postcondition: when generation succeeds, the returned
record's inline preview is the base64 transcoding of its rendered
bytes, and decoding it recovers those bytes. -/
def previewOk (s : GenState) (data format : String) (size border : Nat)
    (error_correction fill_color back_color : String)
    (style : Option String) : Prop :=
  match (generate_qr_code s data format size border error_correction
      fill_color back_color style).2 with
  | Except.error _ => True
  | Except.ok r =>
      r.base64_data = b64encode r.file_data ∧
      b64decode r.base64_data = r.file_data

end QRGen

theorem isErr_error {ε : Type u} {α : Type v} (e : ε) :
    isErr (Except.error e : Except ε α) = true := rfl

theorem isErr_ok {ε : Type u} {α : Type v} (a : α) :
    isErr (Except.ok a : Except ε α) = false := rfl

namespace QRGen

theorem cacheGet_cachePut_self (c : Cache) (k : Nat) (v : QRResult) :
    cacheGet (cachePut c k v) k = some v := by
  simp [cacheGet, cachePut]

theorem find?_filter_ne (c : Cache) (k i : Nat) (h : i ≠ k) :
    (c.filter (fun p => p.1 != k)).find? (fun p => p.1 == i)
      = c.find? (fun p => p.1 == i) := by
  induction c with
  | nil => rfl
  | cons a t ih =>
      have hki : (k == i) = false := by
        simp
        omega
      by_cases hak : a.1 = k
      · have hai : (a.1 == i) = false := by
          simp [hak]
          omega
        simp [List.filter_cons, hak, List.find?_cons, hai, ih, hki]
      · by_cases hai : a.1 = i
        · simp [List.filter_cons, hak, List.find?_cons, hai, ih, hki, h]
        · simp [List.filter_cons, hak, List.find?_cons, hai, ih, hki, h]

theorem cacheGet_cachePut_ne (c : Cache) (k i : Nat) (v : QRResult) (h : i ≠ k) :
    cacheGet (cachePut c k v) i = cacheGet c i := by
  have hk : (k == i) = false := by
    simp
    omega
  simp [cacheGet, cachePut, List.find?_cons, hk, find?_filter_ne c k i h]

theorem b64charDec_b64char : ∀ n, n < 64 → b64charDec (b64char n) = n := by decide

theorem b64char_ne61 : ∀ n, n < 64 → b64char n ≠ 61 := by decide

theorem b64decode_pad2 (c1 c2 c4 : Nat) (rest : Bytes) :
    b64decode (c1 :: c2 :: 61 :: c4 :: rest)
      = [b64charDec c1 * 4 + b64charDec c2 / 16] := by
  simp only [b64decode]
  simp

theorem b64decode_pad1 (c1 c2 c3 : Nat) (rest : Bytes) (h3 : c3 ≠ 61) :
    b64decode (c1 :: c2 :: c3 :: 61 :: rest)
      = [b64charDec c1 * 4 + b64charDec c2 / 16,
         b64charDec c2 % 16 * 16 + b64charDec c3 / 4] := by
  simp only [b64decode]
  rw [if_neg h3]
  simp

theorem b64decode_full (c1 c2 c3 c4 : Nat) (rest : Bytes)
    (h3 : c3 ≠ 61) (h4 : c4 ≠ 61) :
    b64decode (c1 :: c2 :: c3 :: c4 :: rest)
      = (b64charDec c1 * 4 + b64charDec c2 / 16) ::
          (b64charDec c2 % 16 * 16 + b64charDec c3 / 4) ::
          (b64charDec c3 % 4 * 64 + b64charDec c4) :: b64decode rest := by
  simp only [b64decode]
  rw [if_neg h3, if_neg h4]

theorem b64decode_b64encode :
    ∀ bs : Bytes, (∀ b ∈ bs, b < 256) → b64decode (b64encode bs) = bs
  | [], _ => rfl
  | [b1], h => by
      have hb1 : b1 < 256 := h b1 (by simp)
      simp only [b64encode]
      rw [b64decode_pad2]
      rw [b64charDec_b64char _ (by omega), b64charDec_b64char _ (by omega)]
      simp only [List.cons.injEq, and_true]
      omega
  | [b1, b2], h => by
      have hb1 : b1 < 256 := h b1 (by simp)
      have hb2 : b2 < 256 := h b2 (by simp)
      simp only [b64encode]
      rw [b64decode_pad1 _ _ _ _ (b64char_ne61 _ (by omega))]
      rw [b64charDec_b64char _ (by omega), b64charDec_b64char _ (by omega),
          b64charDec_b64char _ (by omega)]
      simp only [List.cons.injEq, and_true]
      omega
  | b1 :: b2 :: b3 :: rest, h => by
      have hb1 : b1 < 256 := h b1 (by simp)
      have hb2 : b2 < 256 := h b2 (by simp)
      have hb3 : b3 < 256 := h b3 (by simp)
      have ih := b64decode_b64encode rest (fun b hb => h b (by simp [hb]))
      simp only [b64encode]
      rw [b64decode_full _ _ _ _ _ (b64char_ne61 _ (by omega))
            (b64char_ne61 _ (by omega))]
      rw [b64charDec_b64char _ (by omega), b64charDec_b64char _ (by omega),
          b64charDec_b64char _ (by omega), b64charDec_b64char _ (by omega)]
      rw [ih]
      simp only [List.cons.injEq, and_true]
      omega

end QRGen


namespace QRGen

theorem strBytes_lt (s : String) : ∀ b ∈ strBytes s, b < 256 := by
  intro b hb
  simp only [strBytes, List.mem_map] at hb
  obtain ⟨c, _, hcb⟩ := hb
  omega

theorem cons_lt {x : Nat} {l : Bytes} (hx : x < 256) (hl : ∀ b ∈ l, b < 256) :
    ∀ b ∈ x :: l, b < 256 := by
  intro b hb
  rcases List.mem_cons.mp hb with rfl | hb
  · exact hx
  · exact hl b hb

theorem append_lt {l1 l2 : Bytes} (h1 : ∀ b ∈ l1, b < 256)
    (h2 : ∀ b ∈ l2, b < 256) : ∀ b ∈ l1 ++ l2, b < 256 := by
  intro b hb
  rcases List.mem_append.mp hb with hb | hb
  · exact h1 b hb
  · exact h2 b hb

theorem generatePNG_lt (qr : QRCodeObj) (fill back : String)
    (style : Option String) : ∀ b ∈ generatePNG qr fill back style, b < 256 := by
  unfold generatePNG
  exact cons_lt (by omega) (cons_lt (by omega) (cons_lt (by omega)
    (cons_lt (by omega) (cons_lt (by split_ifs <;> omega) (cons_lt (by omega)
    (cons_lt (by omega)
      (append_lt (append_lt (strBytes_lt _) (strBytes_lt _)) (strBytes_lt _))))))))

theorem generateSVG_lt (qr : QRCodeObj) (fill back : String) :
    ∀ b ∈ generateSVG qr fill back, b < 256 := by
  unfold generateSVG
  exact cons_lt (by omega) (cons_lt (by omega) (cons_lt (by omega)
    (cons_lt (by omega) (cons_lt (by omega) (cons_lt (by omega)
      (append_lt (append_lt (strBytes_lt _) (strBytes_lt _)) (strBytes_lt _)))))))

theorem generatePDF_lt (qr : QRCodeObj) (fill back : String) :
    ∀ b ∈ generatePDF qr fill back, b < 256 := by
  unfold generatePDF
  exact cons_lt (by omega) (cons_lt (by omega) (cons_lt (by omega)
    (cons_lt (by omega) (generatePNG_lt qr fill back none))))

theorem generate_qr_sync_eq_err (data format : String) (size border : Nat)
    (ec fill back : String) (style : Option String) (e : GenError)
    (hqr : makeQR data (ecLevelOf ec) size border = Except.error e) :
    generate_qr_sync data format size border ec fill back style
      = Except.error e := by
  unfold generate_qr_sync
  rw [hqr]

theorem generate_qr_sync_eq_ok (data format : String) (size border : Nat)
    (ec fill back : String) (style : Option String) (qr : QRCodeObj)
    (hqr : makeQR data (ecLevelOf ec) size border = Except.ok qr) :
    generate_qr_sync data format size border ec fill back style
      = (if strUpper format = "SVG" then Except.ok (generateSVG qr fill back)
         else if strUpper format = "PDF" then Except.ok (generatePDF qr fill back)
         else Except.ok (generatePNG qr fill back style)) := by
  unfold generate_qr_sync
  rw [hqr]

theorem generate_qr_sync_lt (data format : String) (size border : Nat)
    (ec fill back : String) (style : Option String) (bs : Bytes)
    (h : generate_qr_sync data format size border ec fill back style
          = Except.ok bs) : ∀ b ∈ bs, b < 256 := by
  cases hqr : makeQR data (ecLevelOf ec) size border with
  | error e =>
      rw [generate_qr_sync_eq_err data format size border ec fill back style e hqr] at h
      cases h
  | ok qr =>
      rw [generate_qr_sync_eq_ok data format size border ec fill back style qr hqr] at h
      by_cases hsvg : strUpper format = "SVG"
      · rw [if_pos hsvg] at h
        cases h
        exact generateSVG_lt _ _ _
      · rw [if_neg hsvg] at h
        by_cases hpdf : strUpper format = "PDF"
        · rw [if_pos hpdf] at h
          cases h
          exact generatePDF_lt _ _ _
        · rw [if_neg hpdf] at h
          cases h
          exact generatePNG_lt _ _ _ _

end QRGen

namespace QRGen

theorem generate_eq_err (s : GenState) (data format : String)
    (size border : Nat) (ec fill back : String) (style : Option String)
    (e : GenError)
    (hs : generate_qr_sync data format size border ec fill back style
          = Except.error e) :
    generate_qr_code s data format size border ec fill back style
      = ({ s with nextId := s.nextId + 1 }, Except.error e) := by
  unfold generate_qr_code
  rw [hs]

theorem generate_eq_ok (s : GenState) (data format : String)
    (size border : Nat) (ec fill back : String) (style : Option String)
    (bs : Bytes)
    (hs : generate_qr_sync data format size border ec fill back style
          = Except.ok bs) :
    generate_qr_code s data format size border ec fill back style
      = ({ cache := cachePut s.cache s.nextId
              ⟨s.nextId, data, format, size, bs, b64encode bs, s.now, bs.length⟩,
           nextId := s.nextId + 1, now := s.now },
         Except.ok ⟨s.nextId, data, format, size, bs, b64encode bs, s.now,
           bs.length⟩) := by
  unfold generate_qr_code
  rw [hs]

end QRGen


namespace QRGen

theorem get_qr_code_of_cacheGet (c : Cache) (i : Nat) (r : QRResult)
    (h : cacheGet c i = some r) :
    Except.map Prod.fst (get_qr_code c i) = Except.ok r.file_data := by
  unfold get_qr_code
  rw [h]
  rfl

end QRGen


namespace QRGen

/-- C1: after `generate_qr_code` stores its result in the cache under the
generated id, `get_qr_code` on that id returns exactly the artifact's bytes;
and for every id not present in the cache, `get_qr_code` fails with
`FileNotFoundError` (`GetError.notFound`) rather than returning a value. -/
theorem C1_cache_put_get (s : GenState) (data format : String)
    (size border : Nat) (ec fill back : String) (style : Option String)
    (i : Nat) (hi : cacheGet s.cache i = none) :
    (match generate_qr_code s data format size border ec fill back style with
     | (_, Except.error _) => True
     | (s', Except.ok r) =>
         Except.map Prod.fst (get_qr_code s'.cache r.id)
           = Except.ok r.file_data) ∧
    get_qr_code s.cache i = Except.error GetError.notFound := by
  constructor
  · cases hs : generate_qr_sync data format size border ec fill back style with
    | error e =>
        rw [generate_eq_err s data format size border ec fill back style e hs]
        exact trivial
    | ok bs =>
        rw [generate_eq_ok s data format size border ec fill back style bs hs]
        exact get_qr_code_of_cacheGet _ _ _ (cacheGet_cachePut_self _ _ _)
  · unfold get_qr_code
    rw [hi]

/-- C1 witness: a concrete successful generation whose bytes are retrieved
back from the cache, and a concrete absent id that yields `notFound`. -/
theorem C1_witness :
    ((match generate_qr_code ⟨[], 0, 0⟩ "hello" "PNG" 10 4 "M" "black" "white"
          none with
      | (_, Except.error _) => True
      | (s', Except.ok r) =>
          Except.map Prod.fst (get_qr_code s'.cache r.id)
            = Except.ok r.file_data) ∧
     get_qr_code (GenState.mk [] 0 0).cache 7
       = Except.error GetError.notFound) ∧
    isErr (generate_qr_code ⟨[], 0, 0⟩ "hello" "PNG" 10 4 "M" "black" "white"
        none).2 = false :=
  ⟨C1_cache_put_get ⟨[], 0, 0⟩ "hello" "PNG" 10 4 "M" "black" "white" none 7
      rfl,
   by decide⟩

/-- C2 counterexample: on the unsupported format value `"BMP"`, the format
dispatch of `_generate_qr_sync` does not fail with a render error — it
silently produces the raster (PNG) output, identical to requesting
`"PNG"`. -/
theorem C2_counterexample :
    isErr (generate_qr_sync "hello" "BMP" 10 4 "M" "black" "white" none)
        = false ∧
    generate_qr_sync "hello" "BMP" 10 4 "M" "black" "white" none
      = generate_qr_sync "hello" "PNG" 10 4 "M" "black" "white" none :=
  ⟨by decide, by decide⟩

/-- C2 (amended): for every format value other than SVG and PDF (after
uppercasing) — in particular every unsupported format — the dispatch in
`_generate_qr_sync` silently falls back to the raster (PNG) branch and
behaves exactly as if `"PNG"` had been requested; it never raises a
render error for an unknown format. -/
theorem C2_amended_raster_fallback (data fmt : String) (size border : Nat)
    (ec fill back : String) (style : Option String)
    (h1 : strUpper fmt ≠ "SVG") (h2 : strUpper fmt ≠ "PDF") :
    generate_qr_sync data fmt size border ec fill back style
      = generate_qr_sync data "PNG" size border ec fill back style := by
  cases hqr : makeQR data (ecLevelOf ec) size border with
  | error e =>
      rw [generate_qr_sync_eq_err data fmt size border ec fill back style e hqr,
          generate_qr_sync_eq_err data "PNG" size border ec fill back style e hqr]
  | ok qr =>
      rw [generate_qr_sync_eq_ok data fmt size border ec fill back style qr hqr,
          generate_qr_sync_eq_ok data "PNG" size border ec fill back style qr hqr]
      rw [if_neg h1, if_neg h2, if_neg (by decide), if_neg (by decide)]

/-- C2 amended witness: the fallback equality at the concrete unsupported
format `"BMP"`. -/
theorem C2_amended_witness :
    generate_qr_sync "hi" "BMP" 10 4 "M" "black" "white" none
      = generate_qr_sync "hi" "PNG" 10 4 "M" "black" "white" none :=
  C2_amended_raster_fallback "hi" "BMP" 10 4 "M" "black" "white" none
    (by decide) (by decide)

end QRGen

namespace QRGen

/-- C4: encoding fails with `EncodingError` for every payload exceeding the
capacity of the maximum symbol version (40) at the requested
error-correction level and for the empty string, and it never silently
truncates: a successful encode retains the full payload. -/
theorem C4_encode_overflow (data fmt : String) (size border : Nat)
    (ec fill back : String) (style : Option String) :
    ((data = "" ∨ maxCapacity40 (ecLevelOf ec) < data.length) →
       generate_qr_sync data fmt size border ec fill back style
         = Except.error GenError.encodingError) ∧
    (∀ qr, makeQR data (ecLevelOf ec) size border = Except.ok qr →
       qr.data = data) := by
  constructor
  · intro h
    have hqr : makeQR data (ecLevelOf ec) size border
        = Except.error GenError.encodingError := by
      unfold makeQR
      by_cases hd : data = ""
      · rw [if_pos hd]
      · rw [if_neg hd]
        rcases h with h | h
        · exact absurd h hd
        · rw [if_pos h]
    exact generate_qr_sync_eq_err data fmt size border ec fill back style
      GenError.encodingError hqr
  · intro qr hqr
    unfold makeQR at hqr
    by_cases hd : data = ""
    · rw [if_pos hd] at hqr
      cases hqr
    · rw [if_neg hd] at hqr
      by_cases hc : maxCapacity40 (ecLevelOf ec) < data.length
      · rw [if_pos hc] at hqr
        cases hqr
      · rw [if_neg hc] at hqr
        cases hqr
        rfl

/-- C4 witness: the empty string fails, and a 1274-character payload at
level H (capacity 1273) fails. -/
theorem C4_witness :
    generate_qr_sync "" "PNG" 10 4 "M" "black" "white" none
      = Except.error GenError.encodingError ∧
    generate_qr_sync (String.mk (List.replicate 1274 'a')) "PNG" 10 4 "H"
        "black" "white" none = Except.error GenError.encodingError :=
  ⟨(C4_encode_overflow "" "PNG" 10 4 "M" "black" "white" none).1 (Or.inl rfl),
   (C4_encode_overflow (String.mk (List.replicate 1274 'a')) "PNG" 10 4 "H"
       "black" "white" none).1
     (Or.inr (by
       have hl : (String.mk (List.replicate 1274 'a')).length = 1274 := by
         show (List.replicate 1274 'a').length = 1274
         rw [List.length_replicate]
       rw [hl]
       decide))⟩

/-- C9: when generation fails (encode or render raises), the cache is left
exactly as it was before the call — no entry is inserted under the freshly
generated id. -/
theorem C9_failed_generation_cache_unchanged (s : GenState)
    (data format : String) (size border : Nat) (ec fill back : String)
    (style : Option String)
    (h : isErr (generate_qr_code s data format size border ec fill back
        style).2 = true) :
    (generate_qr_code s data format size border ec fill back style).1.cache
      = s.cache := by
  cases hs : generate_qr_sync data format size border ec fill back style with
  | error e =>
      rw [generate_eq_err s data format size border ec fill back style e hs]
  | ok bs =>
      rw [generate_eq_ok s data format size border ec fill back style bs hs]
        at h
      simp [isErr] at h

/-- C9 witness: a concrete failing generation (empty payload) leaves the
empty cache empty. -/
theorem C9_witness :
    isErr (generate_qr_code ⟨[], 0, 5⟩ "" "PNG" 10 4 "M" "black" "white"
        none).2 = true ∧
    (generate_qr_code ⟨[], 0, 5⟩ "" "PNG" 10 4 "M" "black" "white"
        none).1.cache = ([] : Cache) :=
  ⟨by decide,
   C9_failed_generation_cache_unchanged ⟨[], 0, 5⟩ "" "PNG" 10 4 "M" "black"
     "white" none (by decide)⟩

/-- C10: for every error-correction string outside {L, M, Q, H},
`generate_qr_code` does not fail on the level — it behaves exactly as if
`error_correction` were `"M"`. -/
theorem C10_unknown_level_defaults_to_M (s : GenState) (data format : String)
    (size border : Nat) (ecStr fill back : String) (style : Option String)
    (h1 : ecStr ≠ "L") (h2 : ecStr ≠ "M") (h3 : ecStr ≠ "Q")
    (h4 : ecStr ≠ "H") :
    generate_qr_code s data format size border ecStr fill back style
      = generate_qr_code s data format size border "M" fill back style := by
  have hev : ecLevelOf ecStr = ecLevelOf "M" := by
    unfold ecLevelOf error_correction_levels
    rw [if_neg h1, if_neg h2, if_neg h3, if_neg h4]
    decide
  unfold generate_qr_code generate_qr_sync
  rw [hev]

/-- C10 witness: the concrete unknown level `"X"` generates exactly the
result of level `"M"`. -/
theorem C10_witness :
    generate_qr_code ⟨[], 0, 0⟩ "x" "PNG" 10 4 "X" "black" "white" none
      = generate_qr_code ⟨[], 0, 0⟩ "x" "PNG" 10 4 "M" "black" "white" none :=
  C10_unknown_level_defaults_to_M ⟨[], 0, 0⟩ "x" "PNG" 10 4 "X" "black"
    "white" none (by decide) (by decide) (by decide) (by decide)

end QRGen

namespace QRGen

/-- C7: for every successful generation, the inline preview returned to the
caller is exactly the base64 transcoding of the artifact's rendered bytes —
computed after render completes, before the result is returned — and
decoding the preview recovers the stored bytes. -/
theorem C7_preview_base64 (s : GenState) (data format : String)
    (size border : Nat) (ec fill back : String) (style : Option String) :
    previewOk s data format size border ec fill back style := by
  unfold previewOk
  cases hs : generate_qr_sync data format size border ec fill back style with
  | error e =>
      rw [generate_eq_err s data format size border ec fill back style e hs]
      exact trivial
  | ok bs =>
      rw [generate_eq_ok s data format size border ec fill back style bs hs]
      exact ⟨rfl,
        b64decode_b64encode bs
          (generate_qr_sync_lt data format size border ec fill back style bs hs)⟩

/-- C7 non-vacuity check: a concrete successful generation, with its
preview decoding back to its bytes, via `C7_preview_base64`. -/
theorem C7_witness :
    isErr (generate_qr_code ⟨[], 0, 0⟩ "ab" "PNG" 10 4 "M" "black" "white"
        none).2 = false ∧
    previewOk ⟨[], 0, 0⟩ "ab" "PNG" 10 4 "M" "black" "white" none :=
  ⟨by decide, C7_preview_base64 ⟨[], 0, 0⟩ "ab" "PNG" 10 4 "M" "black" "white"
    none⟩

/-- Inserting artifacts with pairwise-distinct ids grows the cache by one
entry and one artifact's bytes per insert. -/
theorem insertAll_stats (rs : List QRResult) :
    ∀ c : Cache, (∀ r ∈ rs, ∀ p ∈ c, p.1 ≠ r.id) →
      rs.Pairwise (fun a b => a.id ≠ b.id) →
      (insertAll c rs).length = c.length + rs.length ∧
      ((insertAll c rs).map (fun p => p.2.file_data.length)).sum
        = (c.map (fun p => p.2.file_data.length)).sum
          + (rs.map (fun r => r.file_data.length)).sum := by
  induction rs with
  | nil =>
      intro c _ _
      simp [insertAll]
  | cons r rest ih =>
      intro c hdis hpw
      have hput : cachePut c r.id r = (r.id, r) :: c := by
        unfold cachePut
        congr 1
        apply List.filter_eq_self.mpr
        intro p hp
        simp only [bne_iff_ne, ne_eq, decide_not, decide_eq_true_eq]
        exact hdis r (by simp) p hp
      have hd2 : ∀ r2 ∈ rest, ∀ p ∈ (r.id, r) :: c, p.1 ≠ r2.id := by
        intro r2 hr2 p hp
        rcases List.mem_cons.mp hp with rfl | hp
        · exact fun hh => ((List.pairwise_cons.mp hpw).1 r2 hr2) hh
        · exact hdis r2 (by simp [hr2]) p hp
      have hrec := ih ((r.id, r) :: c) hd2 (List.pairwise_cons.mp hpw).2
      have hstep : insertAll c (r :: rest) = insertAll ((r.id, r) :: c) rest := by
        unfold insertAll
        simp only [List.foldl_cons]
        rw [hput]
      rw [hstep]
      constructor
      · rw [hrec.1]
        simp
        omega
      · rw [hrec.2]
        simp
        omega

/-- C6: after inserting N artifacts of known sizes (with distinct generated
ids) into an empty cache, `get_cache_stats` reports `cached_items == N` and
`total_cache_size` equal to the sum of the artifacts' byte sizes. -/
theorem C6_stats (rs : List QRResult)
    (h : rs.Pairwise (fun a b => a.id ≠ b.id)) :
    (get_cache_stats (insertAll [] rs)).cached_items = rs.length ∧
    (get_cache_stats (insertAll [] rs)).total_cache_size
      = (rs.map (fun r => r.file_data.length)).sum := by
  have hs := insertAll_stats rs [] (by simp) h
  unfold get_cache_stats
  constructor
  · simpa using hs.1
  · simpa using hs.2

/-- C6 witness: two artifacts of sizes 2 and 3 yield count 2 and total 5. -/
theorem C6_witness :
    (get_cache_stats (insertAll []
        [⟨0, "a", "PNG", 10, [1, 2], [], 0, 2⟩,
         ⟨1, "b", "PNG", 10, [3, 4, 5], [], 0, 3⟩])).cached_items = 2 ∧
    (get_cache_stats (insertAll []
        [⟨0, "a", "PNG", 10, [1, 2], [], 0, 2⟩,
         ⟨1, "b", "PNG", 10, [3, 4, 5], [], 0, 3⟩])).total_cache_size = 5 := by
  have hc := C6_stats
    [⟨0, "a", "PNG", 10, [1, 2], [], 0, 2⟩,
     ⟨1, "b", "PNG", 10, [3, 4, 5], [], 0, 3⟩]
    (by decide)
  exact ⟨hc.1, hc.2⟩

end QRGen

namespace Storage

/-- C3: `upload_to_storage` attempts AWS then Azure sequentially; the Azure
attempt and its outcome are independent of the AWS adapter (and vice
versa), so a failure or disablement of one provider never prevents the
other and nothing is raised to the caller; a disabled provider yields
`None` while an enabled, succeeding provider yields its signed URL. -/
theorem C3_replicate_independent (m : StorageConfig) (aws : AwsCloud)
    (azure : AzureCloud) (now : Nat) (qr_id : String) (file_data : QRGen.Bytes)
    (file_format : String)
    (hA : m.aws_enabled = false) (hAz : m.azure_enabled = true)
    (hup : azure.uploadBlob
        { container := m.azure_container, blob := objectKey qr_id file_format,
          body := file_data, contentType := get_content_type file_format }
        = Except.ok ()) :
    upload_to_storage m aws azure now qr_id file_data file_format
      = (none,
         some (azureBlobUrl m (objectKey qr_id file_format)
           (azure.generateSas
             { account := m.azure_account, container := m.azure_container,
               blob := objectKey qr_id file_format, permRead := true,
               expiry := now + 3600 }))) ∧
    (∀ aws2 : AwsCloud,
       (upload_to_storage m aws2 azure now qr_id file_data file_format).2
         = (upload_to_storage m aws azure now qr_id file_data file_format).2) ∧
    (∀ azure2 : AzureCloud,
       (upload_to_storage m aws azure2 now qr_id file_data file_format).1
         = (upload_to_storage m aws azure now qr_id file_data file_format).1) := by
  refine ⟨?_, fun aws2 => rfl, fun azure2 => rfl⟩
  unfold upload_to_storage upload_to_aws upload_to_azure
  rw [hA, hAz]
  simp only [Bool.not_false, Bool.not_true, if_true, if_false]
  rw [hup]
  simp

/-- C3 witness: provider A disabled, provider B enabled and succeeding —
`replicate` returns `{A: None, B: url}`. -/
theorem C3_witness :
    upload_to_storage ⟨"bkt", "ctr", "acc", false, true⟩
        ⟨fun _ => Except.error CloudError.clientError, fun _ => "aws-url"⟩
        ⟨fun _ => Except.ok (), fun _ => "sas"⟩ 0 "id0" [1] "png"
      = (none, some "https://acc.blob.core.windows.net/ctr/qr-codes/id0.png?sas") := by
  have h := (C3_replicate_independent ⟨"bkt", "ctr", "acc", false, true⟩
    ⟨fun _ => Except.error CloudError.clientError, fun _ => "aws-url"⟩
    ⟨fun _ => Except.ok (), fun _ => "sas"⟩ 0 "id0" [1] "png"
    rfl rfl rfl).1
  rw [h]
  decide

end Storage

namespace Storage

/-- C8: on upload, both providers store the object under the key
`"qr-codes/" ++ id ++ "." ++ lowercase(format)`; the AWS presigned URL is
generated for the read-only `get_object` operation with `ExpiresIn = 3600`
seconds, and the Azure SAS URL is generated with read-only permission
expiring exactly one hour (3600 seconds) after the upload instant. -/
theorem C8_signed_urls (m : StorageConfig) (aws : AwsCloud)
    (azure : AzureCloud) (now : Nat) (file_id : String)
    (file_data : QRGen.Bytes) (file_format : String)
    (hA : m.aws_enabled = true) (hAz : m.azure_enabled = true)
    (hput : aws.putObject
        { bucket := m.aws_bucket, key := objectKey file_id file_format,
          body := file_data, contentType := get_content_type file_format }
        = Except.ok ())
    (hblob : azure.uploadBlob
        { container := m.azure_container, blob := objectKey file_id file_format,
          body := file_data, contentType := get_content_type file_format }
        = Except.ok ()) :
    objectKey file_id file_format
      = "qr-codes/" ++ file_id ++ "." ++ QRGen.strLower file_format ∧
    upload_to_aws m aws file_id file_data file_format
      = some (aws.presign
          { op := "get_object", bucket := m.aws_bucket,
            key := objectKey file_id file_format, expiresIn := 3600 }) ∧
    upload_to_azure m azure now file_id file_data file_format
      = some (azureBlobUrl m (objectKey file_id file_format)
          (azure.generateSas
            { account := m.azure_account, container := m.azure_container,
              blob := objectKey file_id file_format, permRead := true,
              expiry := now + 3600 })) := by
  refine ⟨rfl, ?_, ?_⟩
  · unfold upload_to_aws
    rw [hA]
    simp only [Bool.not_true, if_false]
    rw [hput]
    simp
  · unfold upload_to_azure
    rw [hAz]
    simp only [Bool.not_true, if_false]
    rw [hblob]
    simp

/-- C8 witness: concrete providers storing under `qr-codes/id1.png` and
returning the stubbed signed URLs. -/
theorem C8_witness :
    upload_to_aws ⟨"bkt", "ctr", "acc", true, true⟩
        ⟨fun _ => Except.ok (), fun _ => "aws-url"⟩ "id1" [9] "PNG"
      = some "aws-url" ∧
    upload_to_azure ⟨"bkt", "ctr", "acc", true, true⟩
        ⟨fun _ => Except.ok (), fun _ => "sas"⟩ 7 "id1" [9] "PNG"
      = some "https://acc.blob.core.windows.net/ctr/qr-codes/id1.png?sas" := by
  have h := C8_signed_urls ⟨"bkt", "ctr", "acc", true, true⟩
    ⟨fun _ => Except.ok (), fun _ => "aws-url"⟩
    ⟨fun _ => Except.ok (), fun _ => "sas"⟩ 7 "id1" [9] "PNG"
    rfl rfl rfl rfl
  refine ⟨h.2.1.trans (by decide), h.2.2.trans (by decide)⟩

end Storage

namespace QRGen

/-- C5 (the code at the claim's inputs): contrary to the claim, `/qr/batch`
fails on every non-empty batch.  The loop's `QRCodeResponse(...)` is
constructed without the required `qr_code_base64` field of the response
model, so pydantic raises a `ValidationError` while building the response
for the very first item; the endpoint's `except Exception` turns it into a
500.  Exactly one identifier is consumed — only item 1 is generated and
cached, later items are never processed, and no result list is returned. -/
theorem C5_batch_response_validation (s : GenState) (items : List String)
    (format : String) (size : Nat) (h : items ≠ []) :
    isErr (generate_batch_qr_codes s items format size).2 = true ∧
    (items.length ≤ 100 →
      (generate_batch_qr_codes s items format size).1.nextId
        = s.nextId + 1) := by
  cases items with
  | nil => exact absurd rfl h
  | cons item rest =>
      unfold generate_batch_qr_codes
      by_cases hlen : 100 < (item :: rest).length
      · rw [if_pos hlen]
        exact ⟨rfl, fun h2 => absurd hlen (by omega)⟩
      · rw [if_neg hlen]
        cases hs : generate_qr_sync item format size 4 "M" "black" "white"
            none with
        | error e =>
            simp only [batchLoop,
              generate_eq_err s item format size 4 "M" "black" "white" none e
                hs]
            exact ⟨rfl, fun _ => trivial⟩
        | ok bs =>
            simp only [batchLoop,
              generate_eq_ok s item format size 4 "M" "black" "white" none bs
                hs,
              mkQRCodeResponse]
            exact ⟨rfl, fun _ => trivial⟩

/-- C5 witness: the spec's own scenario `["a", "b", "c"]` — the endpoint
fails with the response-model validation error, having consumed exactly
one identifier (only item 1 was generated before the loop aborted). -/
theorem C5_witness :
    isErr (generate_batch_qr_codes ⟨[], 0, 0⟩ ["a", "b", "c"] "PNG" 10).2
        = true ∧
    (generate_batch_qr_codes ⟨[], 0, 0⟩ ["a", "b", "c"] "PNG" 10).2
      = Except.error (ApiError.internal BatchFailure.validation) ∧
    (generate_batch_qr_codes ⟨[], 0, 0⟩ ["a", "b", "c"] "PNG" 10).1.nextId
      = 1 :=
  ⟨(C5_batch_response_validation ⟨[], 0, 0⟩ ["a", "b", "c"] "PNG" 10
      (by decide)).1,
   by decide, by decide⟩

end QRGen
